import Mathlib

/-!
Shallow embedding of the Person/Address FastAPI application
(src/main.py, src/models/address.py, src/models/person.py,
src/models/course.py) and proofs about its validation-and-partial-update
model.

Modelling conventions:
* `UUID` values are modelled as natural numbers; a call to `uuid4()` is
  modelled by passing the freshly generated value as an explicit argument.
* `datetime` values are modelled as natural numbers (`DateTime`); the
  `default_factory=datetime.utcnow` calls at record construction are
  modelled by an explicit `now` argument (both timestamp fields are
  constructed at the same instant).
* A Python `dict` keyed by UUID is modelled as an association list in
  insertion order (`dictGet` reads, `dictSet` writes in place or appends,
  `dictValues` is `.values()`), matching the insertion-order iteration of
  Python dictionaries.
* A Pydantic `Optional[T]` request-body field with unset-tracking
  (`model_dump(exclude_unset=True)`) is modelled as `Option (Option T)`:
  the outer layer records whether the field was supplied at all, the
  inner layer is the supplied value, which may be an explicit null.
* `HTTPException` and Pydantic `ValidationError` escaping a handler are
  modelled with `Except Http`; a handler that raises leaves the store
  unchanged.
-/

abbrev UUID := Nat
abbrev DateTime := Nat

structure Http where
  status_code : Nat
  detail : String
deriving DecidableEq

/-- In-memory dict lookup: first entry with the given key. -/
def dictGet (d : List (UUID × α)) (k : UUID) : Option α :=
  match d with
  | [] => none
  | (k₁, v₁) :: rest => if k₁ = k then some v₁ else dictGet rest k

/-- In-memory dict write: `d[k] = v`; updates the existing entry in place
(keeping its position) or appends a new entry, as a Python dict does. -/
def dictSet (d : List (UUID × α)) (k : UUID) (v : α) : List (UUID × α) :=
  match d with
  | [] => [(k, v)]
  | (k₁, v₁) :: rest => if k₁ = k then (k, v) :: rest else (k₁, v₁) :: dictSet rest k v

/-- Python `d.values()`, in insertion order. -/
def dictValues (d : List (UUID × α)) : List α := d.map (·.2)

/-! ## models/address.py -/

/-- Shape `AddressBase`: id (uuid4 default factory resolved at validation time),
street, city (required), state, postal_code (nullable), country (required). -/
structure AddressBase where
  id : UUID
  street : String
  city : String
  state : Option String
  postal_code : Option String
  country : String
deriving DecidableEq

/-- Shape `AddressCreate` adds no field to `AddressBase`. -/
abbrev AddressCreate := AddressBase

/-- Shape `AddressRead`: `AddressBase` plus the two server timestamps. -/
structure AddressRead where
  id : UUID
  street : String
  city : String
  state : Option String
  postal_code : Option String
  country : String
  created_at : DateTime
  updated_at : DateTime
deriving DecidableEq

/-- Shape `AddressUpdate`: every field optional with unset-tracking; the outer
`Option` is "was the key supplied", the inner is the supplied value
(`Optional[str]` admits an explicit null). -/
structure AddressUpdate where
  street : Option (Option String)
  city : Option (Option String)
  state : Option (Option String)
  postal_code : Option (Option String)
  country : Option (Option String)
deriving DecidableEq

/-- The all-unset `AddressUpdate` (patch body `{}`). -/
def AddressUpdate.empty : AddressUpdate := ⟨none, none, none, none, none⟩

/-! ## models/person.py and models/course.py: pattern validators

The source patterns are `r"^[a-z]{2,3}\d{1,4}$"` (UNIType, person.py line
11) and `r"^[A-Z]{4}\d{4}$"` (CourseCode, course.py line 7).  They are
embedded as data in a small anchored-regex language whose only
constructors are bounded repetition of a character class and
concatenation, with a backtracking matcher.  In Pydantic v2 pattern
validation (the Rust regex crate by default, the Python `re` fallback
alike) the class `\d` matches every Unicode decimal digit — the category
`Nd` — not only ASCII `0-9`; it is embedded via the `Nd` range table. -/

def isLowerAlpha (c : Char) : Bool := 'a' ≤ c && c ≤ 'z'
/-- Code-point ranges of the Unicode decimal-digit category `Nd`
(Unicode 14.0), each a contiguous run of digits; ASCII `0-9` is the
first. -/
def ndRanges : List (Nat × Nat) := [
  (48, 57), (1632, 1641), (1776, 1785), (1984, 1993), (2406, 2415), (2534,
  2543), (2662, 2671), (2790, 2799), (2918, 2927), (3046, 3055), (3174,
  3183), (3302, 3311), (3430, 3439), (3558, 3567), (3664, 3673), (3792,
  3801), (3872, 3881), (4160, 4169), (4240, 4249), (6112, 6121), (6160,
  6169), (6470, 6479), (6608, 6617), (6784, 6793), (6800, 6809), (6992,
  7001), (7088, 7097), (7232, 7241), (7248, 7257), (42528, 42537), (43216,
  43225), (43264, 43273), (43472, 43481), (43504, 43513), (43600, 43609),
  (44016, 44025), (65296, 65305), (66720, 66729), (68912, 68921), (69734,
  69743), (69872, 69881), (69942, 69951), (70096, 70105), (70384, 70393),
  (70736, 70745), (70864, 70873), (71248, 71257), (71360, 71369), (71472,
  71481), (71904, 71913), (72016, 72025), (72784, 72793), (73040, 73049),
  (73120, 73129), (73552, 73561), (92768, 92777), (92864, 92873), (93008,
  93017), (120782, 120831), (123200, 123209), (123632, 123641), (125264,
  125273)]

/-- Class `\d` of the source patterns: a Unicode decimal digit (`Nd`). -/
def isUnicodeDigit (c : Char) : Bool :=
  ndRanges.any fun r => r.1 ≤ c.toNat && c.toNat ≤ r.2

inductive Regex where
  | cls (p : Char → Bool) (lo hi : Nat)
  | cat (r₁ r₂ : Regex)

/-- Anchored match of a regex against a whole character list. -/
def Regex.matchList : Regex → List Char → Bool
  | .cls p lo hi, l => decide (lo ≤ l.length) && decide (l.length ≤ hi) && l.all p
  | .cat r₁ r₂, l =>
      (List.range (l.length + 1)).any fun i =>
        matchList r₁ (l.take i) && matchList r₂ (l.drop i)

/-- Pattern `^[a-z]{2,3}\d{1,4}$` (UNIType). -/
def uniPattern : Regex := .cat (.cls isLowerAlpha 2 3) (.cls isUnicodeDigit 1 4)

/-- The UNIType validator: anchored match of the whole string. -/
def uniValid (s : String) : Bool := uniPattern.matchList s.data

/-- Shape `PersonBase` fields as resolved at validation time (`PersonCreate`
adds nothing).  `birth_date` is kept as its ISO string; `str(None)`
renders as `"None"` where the listing filter stringifies it. -/
structure PersonCreate where
  uni : String
  first_name : String
  last_name : String
  email : String
  phone : Option String
  birth_date : Option String
  addresses : List AddressBase
deriving DecidableEq

/-- Shape `PersonRead`: `PersonBase` plus server id and timestamps. -/
structure PersonRead where
  id : UUID
  uni : String
  first_name : String
  last_name : String
  email : String
  phone : Option String
  birth_date : Option String
  addresses : List AddressBase
  created_at : DateTime
  updated_at : DateTime
deriving DecidableEq

/-- Shape `PersonUpdate`: every field optional with unset-tracking; supplied
values may be explicit nulls (all fields are `Optional[...]`). -/
structure PersonUpdate where
  uni : Option (Option String)
  first_name : Option (Option String)
  last_name : Option (Option String)
  email : Option (Option String)
  phone : Option (Option String)
  birth_date : Option (Option String)
  addresses : Option (Option (List AddressBase))
deriving DecidableEq

/-- The all-unset `PersonUpdate` (patch body `{}`). -/
def PersonUpdate.empty : PersonUpdate := ⟨none, none, none, none, none, none, none⟩

abbrev AddrDB := List (UUID × AddressRead)
abbrev PersonDB := List (UUID × PersonRead)

/-! ## main.py handlers -/

/-- Handler `create_address`: 400 if the payload id is already a key, otherwise
store `AddressRead(**address.model_dump())` (timestamps from their
default factories, all other fields — the id included — from the
payload). -/
def create_address (db : AddrDB) (address : AddressCreate) (now : DateTime) :
    Except Http AddressRead × AddrDB :=
  if (dictGet db address.id).isSome then
    (.error ⟨400, "Address with this ID already exists"⟩, db)
  else
    let r : AddressRead :=
      { id := address.id, street := address.street, city := address.city,
        state := address.state, postal_code := address.postal_code,
        country := address.country, created_at := now, updated_at := now }
    (.ok r, dictSet db address.id r)

/-- Handler `get_address`: 404 when absent, the stored record otherwise. -/
def get_address (db : AddrDB) (address_id : UUID) : Except Http AddressRead :=
  match dictGet db address_id with
  | none => .error ⟨404, "Address not found"⟩
  | some a => .ok a

/-- Python `stored.update(update.model_dump(exclude_unset=True))` followed by
re-validation `AddressRead(**stored)`: supplied fields overwrite, unset
fields keep the stored value; the result is `none` when a required
(non-nullable) field was overwritten with an explicit null, in which case
`AddressRead` construction raises `ValidationError`. -/
def mergeAddress (stored : AddressRead) (u : AddressUpdate) : Option AddressRead :=
  match u.street.getD (some stored.street), u.city.getD (some stored.city),
        u.country.getD (some stored.country) with
  | some street, some city, some country =>
      some { id := stored.id, street := street, city := city,
             state := u.state.getD stored.state,
             postal_code := u.postal_code.getD stored.postal_code,
             country := country,
             created_at := stored.created_at, updated_at := stored.updated_at }
  | _, _, _ => none

/-- Handler `update_address`: 404 when absent; otherwise dict-merge the
exclude-unset patch into the stored dump and re-validate.  A
`ValidationError` escaping the handler is a 500 and leaves the store
untouched. -/
def update_address (db : AddrDB) (address_id : UUID) (update : AddressUpdate) :
    Except Http AddressRead × AddrDB :=
  match dictGet db address_id with
  | none => (.error ⟨404, "Address not found"⟩, db)
  | some stored =>
      match mergeAddress stored update with
      | none => (.error ⟨500, "Internal Server Error"⟩, db)
      | some r => (.ok r, dictSet db address_id r)

/-- Handler `create_person`: no duplicate check; builds a `PersonRead` with a
fresh uuid4 (the `freshId` argument) and stores it unconditionally. -/
def create_person (db : PersonDB) (person : PersonCreate) (freshId : UUID)
    (now : DateTime) : PersonRead × PersonDB :=
  let r : PersonRead :=
    { id := freshId, uni := person.uni, first_name := person.first_name,
      last_name := person.last_name, email := person.email,
      phone := person.phone, birth_date := person.birth_date,
      addresses := person.addresses, created_at := now, updated_at := now }
  (r, dictSet db freshId r)

/-- Handler `get_person`: 404 when absent, the stored record otherwise. -/
def get_person (db : PersonDB) (person_id : UUID) : Except Http PersonRead :=
  match dictGet db person_id with
  | none => .error ⟨404, "Person not found"⟩
  | some p => .ok p

/-- Person dict-merge with re-validation `PersonRead(**stored)`:
supplied fields overwrite (a supplied `addresses` list replaces the
stored list wholesale), unset fields keep the stored value; `none` when a
required field was overwritten with an explicit null or the resulting
`uni` fails its pattern. -/
def mergePerson (stored : PersonRead) (u : PersonUpdate) : Option PersonRead :=
  match u.uni.getD (some stored.uni), u.first_name.getD (some stored.first_name),
        u.last_name.getD (some stored.last_name), u.email.getD (some stored.email),
        u.addresses.getD (some stored.addresses) with
  | some uni, some first_name, some last_name, some email, some addresses =>
      if uniValid uni then
        some { id := stored.id, uni := uni, first_name := first_name,
               last_name := last_name, email := email,
               phone := u.phone.getD stored.phone,
               birth_date := u.birth_date.getD stored.birth_date,
               addresses := addresses,
               created_at := stored.created_at, updated_at := stored.updated_at }
      else none
  | _, _, _, _, _ => none

/-- Handler `update_person`: 404 when absent; otherwise dict-merge the
exclude-unset patch into the stored dump and re-validate. -/
def update_person (db : PersonDB) (person_id : UUID) (update : PersonUpdate) :
    Except Http PersonRead × PersonDB :=
  match dictGet db person_id with
  | none => (.error ⟨404, "Person not found"⟩, db)
  | some stored =>
      match mergePerson stored update with
      | none => (.error ⟨500, "Internal Server Error"⟩, db)
      | some r => (.ok r, dictSet db person_id r)

/-- Python `str(p.birth_date)` as used by the birth_date query filter:
the ISO string of the date, or the Python rendering of `None`. -/
def birthDateStr (p : PersonRead) : String := p.birth_date.getD "None"

/-- One `if x is not None: results = [r for r in results if pred(x, r)]`
step of the listing handlers. -/
def applyFilter (f : Option String) (pred : String → α → Bool) (results : List α) :
    List α :=
  match f with
  | none => results
  | some s => results.filter (pred s)

/-- Handler `list_addresses`: start from `.values()` and narrow by each supplied
exact-match filter in turn. -/
def list_addresses (db : AddrDB) (street city state postal_code country : Option String) :
    List AddressRead :=
  let results := dictValues db
  let results := applyFilter street (fun s a => a.street == s) results
  let results := applyFilter city (fun s a => a.city == s) results
  let results := applyFilter state (fun s a => a.state == some s) results
  let results := applyFilter postal_code (fun s a => a.postal_code == some s) results
  let results := applyFilter country (fun s a => a.country == s) results
  results

/-- Handler `list_persons`: start from `.values()` and narrow by each supplied
exact-match filter in turn; the final city/country filters hold when at
least one embedded address matches. -/
def list_persons (db : PersonDB)
    (uni first_name last_name email phone birth_date city country : Option String) :
    List PersonRead :=
  let results := dictValues db
  let results := applyFilter uni (fun s p => p.uni == s) results
  let results := applyFilter first_name (fun s p => p.first_name == s) results
  let results := applyFilter last_name (fun s p => p.last_name == s) results
  let results := applyFilter email (fun s p => p.email == s) results
  let results := applyFilter phone (fun s p => p.phone == some s) results
  let results := applyFilter birth_date (fun s p => birthDateStr p == s) results
  let results := applyFilter city (fun s p => p.addresses.any fun addr => addr.city == s) results
  let results := applyFilter country (fun s p => p.addresses.any fun addr => addr.country == s) results
  results

/-! ## Specification-side descriptions used in the theorem statements -/

/-- One exact-match predicate of the specification: trivially true when
the filter is not supplied. -/
def optPred (f : Option String) (pred : String → α → Bool) (a : α) : Bool :=
  match f with
  | none => true
  | some s => pred s a

/-- The conjunction of all supplied address filters. -/
def addressMatches (street city state postal_code country : Option String)
    (a : AddressRead) : Bool :=
  optPred street (fun s a => a.street == s) a &&
  optPred city (fun s a => a.city == s) a &&
  optPred state (fun s a => a.state == some s) a &&
  optPred postal_code (fun s a => a.postal_code == some s) a &&
  optPred country (fun s a => a.country == s) a

/-- The conjunction of all supplied person filters; the nested city and
country filters hold when at least one embedded address matches. -/
def personMatches (uni first_name last_name email phone birth_date city country : Option String)
    (p : PersonRead) : Bool :=
  optPred uni (fun s p => p.uni == s) p &&
  optPred first_name (fun s p => p.first_name == s) p &&
  optPred last_name (fun s p => p.last_name == s) p &&
  optPred email (fun s p => p.email == s) p &&
  optPred phone (fun s p => p.phone == some s) p &&
  optPred birth_date (fun s p => birthDateStr p == s) p &&
  optPred city (fun s p => p.addresses.any fun addr => addr.city == s) p &&
  optPred country (fun s p => p.addresses.any fun addr => addr.country == s) p

/-- The merged value of a required (non-nullable) field as the
specification describes it: the patch value when the field was supplied,
the stored value when it was omitted. -/
def patched (patch : Option (Option β)) (stored : β) : β :=
  match patch with
  | some (some x) => x
  | _ => stored

/-- The merged value of a nullable field: the supplied value — an
explicit null included — when the field was supplied, the stored value
when it was omitted. -/
def patchedOpt (patch : Option (Option β)) (stored : Option β) : Option β :=
  match patch with
  | some x => x
  | none => stored

/-! ## Concrete instances used in the closed theorems -/

def sampleAddress : AddressRead :=
  ⟨1, "123 Main St", "New York", some "NY", some "10001", "USA", 0, 0⟩

def samplePerson : PersonRead :=
  ⟨2, "abc1234", "Ada", "Lovelace", "ada@example.com", some "+1-212-555-0199",
   some "1815-12-10", [], 0, 0⟩

/-- Patch setting street, explicitly nulling state, omitting the rest. -/
def sampleAddressPatch : AddressUpdate :=
  ⟨some (some "221B Baker St"), none, some none, none, none⟩

def sampleEmbedded : AddressBase :=
  ⟨9, "10 Downing St", "London", none, some "SW1A 2AA", "UK"⟩

/-- Patch setting uni, explicitly nulling phone, replacing the address
list wholesale, omitting the rest. -/
def samplePersonPatch : PersonUpdate :=
  ⟨some (some "xy12"), none, none, none, some none, none, some (some [sampleEmbedded])⟩

def sampleAddressCreate : AddressCreate := ⟨7, "1 A St", "X", none, none, "Y"⟩

def samplePersonCreate : PersonCreate := ⟨"xy123", "Grace", "Hopper", "grace@navy.mil", none, none, []⟩

/-- The record stored by a successful create of `sampleAddressCreate` at
time 0. -/
def sampleAddressStored : AddressRead := ⟨7, "1 A St", "X", none, none, "Y", 0, 0⟩

deriving instance DecidableEq for Except

/-! ## Helper lemmas -/

theorem dictGet_dictSet_self (d : List (UUID × α)) (k : UUID) (v : α) :
    dictGet (dictSet d k v) k = some v := by
  induction d with
  | nil => simp [dictGet, dictSet]
  | cons hd tl ih =>
      obtain ⟨k₁, v₁⟩ := hd
      by_cases h : k₁ = k
      · simp [dictGet, dictSet, h]
      · simp [dictGet, dictSet, h, ih]

theorem dictSet_self_of_get (d : List (UUID × α)) (k : UUID) (v : α)
    (h : dictGet d k = some v) : dictSet d k v = d := by
  induction d with
  | nil => simp [dictGet] at h
  | cons hd tl ih =>
      obtain ⟨k₁, v₁⟩ := hd
      by_cases hk : k₁ = k
      · simp [dictGet, hk] at h
        simp [dictSet, hk, h]
      · simp [dictGet, hk] at h
        simp [dictSet, hk, ih h]

theorem applyFilter_eq (f : Option String) (pred : String → α → Bool) (l : List α) :
    applyFilter f pred l = l.filter (optPred f pred) := by
  cases f with
  | none => exact (List.filter_true l).symm
  | some s => rfl

theorem getD_eq_patched (patch : Option (Option β)) (stored : β) (h : patch ≠ some none) :
    patch.getD (some stored) = some (patched patch stored) := by
  rcases patch with _ | (_ | x)
  · rfl
  · exact absurd rfl h
  · rfl

theorem getD_eq_patchedOpt (patch : Option (Option β)) (stored : Option β) :
    patch.getD stored = patchedOpt patch stored := by
  cases patch <;> rfl

theorem mergeAddress_frame (stored : AddressRead) (u : AddressUpdate) (r : AddressRead)
    (h : mergeAddress stored u = some r) :
    r.id = stored.id ∧ r.created_at = stored.created_at ∧ r.updated_at = stored.updated_at := by
  unfold mergeAddress at h
  split at h
  · injection h with h
    subst h
    exact ⟨rfl, rfl, rfl⟩
  · exact absurd h (by simp)

theorem mergePerson_frame (stored : PersonRead) (u : PersonUpdate) (r : PersonRead)
    (h : mergePerson stored u = some r) :
    r.id = stored.id ∧ r.created_at = stored.created_at ∧ r.updated_at = stored.updated_at := by
  unfold mergePerson at h
  split at h
  · split at h
    · injection h with h
      subst h
      exact ⟨rfl, rfl, rfl⟩
    · exact absurd h (by simp)
  · exact absurd h (by simp)

/-- C5: a list call with zero or more supplied exact-match filters returns
exactly the stored records satisfying the conjunction of all supplied
predicates, in insertion order (with no filters supplied, all records);
the person city/country filters hold when at least one embedded address
matches. -/
theorem C5_list_filters (db : AddrDB) (pdb : PersonDB)
    (street city state postal_code country : Option String)
    (uni first_name last_name email phone birth_date pcity pcountry : Option String) :
    list_addresses db street city state postal_code country =
      (dictValues db).filter (addressMatches street city state postal_code country) ∧
    list_persons pdb uni first_name last_name email phone birth_date pcity pcountry =
      (dictValues pdb).filter
        (personMatches uni first_name last_name email phone birth_date pcity pcountry) ∧
    list_addresses db none none none none none = dictValues db ∧
    list_persons pdb none none none none none none none none = dictValues pdb := by
  refine ⟨?_, ?_, ?_, ?_⟩
  · simp only [list_addresses, applyFilter_eq, List.filter_filter]
    refine List.filter_congr fun a _ => ?_
    simp [addressMatches, Bool.and_assoc, Bool.and_comm, Bool.and_left_comm]
  · simp only [list_persons, applyFilter_eq, List.filter_filter]
    refine List.filter_congr fun p _ => ?_
    simp [personMatches, Bool.and_assoc, Bool.and_comm, Bool.and_left_comm]
  · rfl
  · rfl

/-- C1: in a partial update, each field explicitly supplied in the patch
(an explicit null for nullable fields such as Address.state included)
replaces the stored field, each omitted field keeps the stored value, and
a supplied Person.addresses list replaces the stored list wholesale.
The hypotheses restrict to patches the handler processes successfully:
none of the required (non-nullable) fields is explicitly nulled and the
merged uni passes its pattern re-validation. -/
theorem C1_partial_update_merge (db : AddrDB) (pdb : PersonDB) (aid pid : UUID)
    (a : AddressRead) (p : PersonRead) (u : AddressUpdate) (v : PersonUpdate)
    (ha : dictGet db aid = some a)
    (hstreet : u.street ≠ some none) (hcity : u.city ≠ some none)
    (hcountry : u.country ≠ some none)
    (hp : dictGet pdb pid = some p)
    (huni : v.uni ≠ some none) (hfn : v.first_name ≠ some none)
    (hln : v.last_name ≠ some none) (hem : v.email ≠ some none)
    (haddr : v.addresses ≠ some none)
    (hvalid : uniValid (patched v.uni p.uni) = true) :
    update_address db aid u =
      (.ok { id := a.id,
             street := patched u.street a.street,
             city := patched u.city a.city,
             state := patchedOpt u.state a.state,
             postal_code := patchedOpt u.postal_code a.postal_code,
             country := patched u.country a.country,
             created_at := a.created_at, updated_at := a.updated_at },
       dictSet db aid
         { id := a.id,
           street := patched u.street a.street,
           city := patched u.city a.city,
           state := patchedOpt u.state a.state,
           postal_code := patchedOpt u.postal_code a.postal_code,
           country := patched u.country a.country,
           created_at := a.created_at, updated_at := a.updated_at }) ∧
    update_person pdb pid v =
      (.ok { id := p.id,
             uni := patched v.uni p.uni,
             first_name := patched v.first_name p.first_name,
             last_name := patched v.last_name p.last_name,
             email := patched v.email p.email,
             phone := patchedOpt v.phone p.phone,
             birth_date := patchedOpt v.birth_date p.birth_date,
             addresses := patched v.addresses p.addresses,
             created_at := p.created_at, updated_at := p.updated_at },
       dictSet pdb pid
         { id := p.id,
           uni := patched v.uni p.uni,
           first_name := patched v.first_name p.first_name,
           last_name := patched v.last_name p.last_name,
           email := patched v.email p.email,
           phone := patchedOpt v.phone p.phone,
           birth_date := patchedOpt v.birth_date p.birth_date,
           addresses := patched v.addresses p.addresses,
           created_at := p.created_at, updated_at := p.updated_at }) := by
  constructor
  · have hm : mergeAddress a u = some
        { id := a.id,
          street := patched u.street a.street,
          city := patched u.city a.city,
          state := patchedOpt u.state a.state,
          postal_code := patchedOpt u.postal_code a.postal_code,
          country := patched u.country a.country,
          created_at := a.created_at, updated_at := a.updated_at } := by
      unfold mergeAddress
      rw [getD_eq_patched u.street a.street hstreet, getD_eq_patched u.city a.city hcity,
          getD_eq_patched u.country a.country hcountry,
          getD_eq_patchedOpt u.state a.state,
          getD_eq_patchedOpt u.postal_code a.postal_code]
    simp only [update_address, ha, hm]
  · have hm : mergePerson p v = some
        { id := p.id,
          uni := patched v.uni p.uni,
          first_name := patched v.first_name p.first_name,
          last_name := patched v.last_name p.last_name,
          email := patched v.email p.email,
          phone := patchedOpt v.phone p.phone,
          birth_date := patchedOpt v.birth_date p.birth_date,
          addresses := patched v.addresses p.addresses,
          created_at := p.created_at, updated_at := p.updated_at } := by
      unfold mergePerson
      rw [getD_eq_patched v.uni p.uni huni, getD_eq_patched v.first_name p.first_name hfn,
          getD_eq_patched v.last_name p.last_name hln, getD_eq_patched v.email p.email hem,
          getD_eq_patched v.addresses p.addresses haddr,
          getD_eq_patchedOpt v.phone p.phone,
          getD_eq_patchedOpt v.birth_date p.birth_date]
      simp [hvalid]
    simp only [update_person, hp, hm]

/-- C2 counterexample: the claim fails for Address creates.  Two create
payloads identical except for their id field are stored under the ids
`7` and `8` they carry: the stored identifier is taken out of the
client's input payload, not generated independently of it. -/
theorem C2_counterexample_address_id_from_payload :
    (create_address [] ⟨7, "1 A St", "X", none, none, "Y"⟩ 0).1 =
      .ok ⟨7, "1 A St", "X", none, none, "Y", 0, 0⟩ ∧
    (create_address [] ⟨8, "1 A St", "X", none, none, "Y"⟩ 0).1 =
      .ok ⟨8, "1 A St", "X", none, none, "Y", 0, 0⟩ := by decide

/-- C2 amended: a Person create stores the record under the freshly
generated uuid4 identifier, independent of the payload; an Address create
stores the record under the id carried by the validated payload
(uuid4-generated only when the client omitted it), and succeeds only when
that id has no entry yet, so a stored id is never displaced by a later
create. -/
theorem C2_amended_identifier_policy (db : AddrDB) (pdb : PersonDB) (ac : AddressCreate)
    (pc pc₂ : PersonCreate) (freshId : UUID) (now now₂ : DateTime)
    (r : AddressRead) (db₂ : AddrDB)
    (h : create_address db ac now = (.ok r, db₂)) :
    r.id = ac.id ∧ dictGet db ac.id = none ∧
    (create_person pdb pc freshId now).1.id = freshId ∧
    (create_person pdb pc freshId now).1.id = (create_person pdb pc₂ freshId now₂).1.id := by
  unfold create_address at h
  split at h
  · exact absurd h (by simp)
  · next hget =>
      injection h with h₁ h₂
      injection h₁ with h₁
      refine ⟨h₁ ▸ rfl, ?_, rfl, rfl⟩
      rcases hg : dictGet db ac.id with _ | a
      · rfl
      · rw [hg] at hget
        exact absurd rfl hget

/-- C3: creating a record and then fetching it by the returned identifier
yields a record equal to the creation payload extended with the assigned
identifier and the two creation timestamps, for Address and Person alike. -/
theorem C3_create_then_get (db : AddrDB) (pdb : PersonDB) (ac : AddressCreate)
    (pc : PersonCreate) (freshId : UUID) (now : DateTime) (r : AddressRead) (db₂ : AddrDB)
    (h : create_address db ac now = (.ok r, db₂)) :
    (get_address db₂ r.id = .ok r ∧
      r = { id := ac.id, street := ac.street, city := ac.city, state := ac.state,
            postal_code := ac.postal_code, country := ac.country,
            created_at := now, updated_at := now }) ∧
    (get_person (create_person pdb pc freshId now).2 (create_person pdb pc freshId now).1.id =
        .ok (create_person pdb pc freshId now).1 ∧
      (create_person pdb pc freshId now).1 =
        { id := freshId, uni := pc.uni, first_name := pc.first_name,
          last_name := pc.last_name, email := pc.email, phone := pc.phone,
          birth_date := pc.birth_date, addresses := pc.addresses,
          created_at := now, updated_at := now }) := by
  refine ⟨?_, ?_, rfl⟩
  · unfold create_address at h
    split at h
    · exact absurd h (by simp)
    · injection h with h₁ h₂
      injection h₁ with h₁
      subst h₁ h₂
      refine ⟨?_, rfl⟩
      simp only [get_address, dictGet_dictSet_self]
  · simp only [create_person, get_person, dictGet_dictSet_self]

/-- C6: a get or partial update on an identifier absent from the store
fails with a 404 error whose detail names the resource type, and the
store is left unchanged. -/
theorem C6_not_found (db : AddrDB) (pdb : PersonDB) (aid pid : UUID)
    (u : AddressUpdate) (v : PersonUpdate)
    (ha : dictGet db aid = none) (hp : dictGet pdb pid = none) :
    get_address db aid = .error ⟨404, "Address not found"⟩ ∧
    update_address db aid u = (.error ⟨404, "Address not found"⟩, db) ∧
    get_person pdb pid = .error ⟨404, "Person not found"⟩ ∧
    update_person pdb pid v = (.error ⟨404, "Person not found"⟩, pdb) := by
  simp [get_address, update_address, get_person, update_person, ha, hp]

/-- C7: a successful partial update leaves the record's identifier and
created_at timestamp exactly as they were before the update. -/
theorem C7_update_preserves_identity (db : AddrDB) (pdb : PersonDB) (aid pid : UUID)
    (a : AddressRead) (p : PersonRead) (u : AddressUpdate) (v : PersonUpdate)
    (r : AddressRead) (db₂ : AddrDB) (q : PersonRead) (pdb₂ : PersonDB)
    (ha : dictGet db aid = some a) (hr : update_address db aid u = (.ok r, db₂))
    (hp : dictGet pdb pid = some p) (hq : update_person pdb pid v = (.ok q, pdb₂)) :
    r.id = a.id ∧ r.created_at = a.created_at ∧
    q.id = p.id ∧ q.created_at = p.created_at := by
  simp only [update_address, ha] at hr
  simp only [update_person, hp] at hq
  rcases hm : mergeAddress a u with _ | r'
  · simp only [hm] at hr
    exact absurd hr (by simp)
  · simp only [hm] at hr
    injection hr with h₁ h₂
    injection h₁ with h₁
    subst h₁
    obtain ⟨e₁, e₂, _⟩ := mergeAddress_frame a u r' hm
    rcases hn : mergePerson p v with _ | q'
    · simp only [hn] at hq
      exact absurd hq (by simp)
    · simp only [hn] at hq
      injection hq with g₁ g₂
      injection g₁ with g₁
      subst g₁
      obtain ⟨f₁, f₂, _⟩ := mergePerson_frame p v q' hn
      exact ⟨e₁, e₂, f₁, f₂⟩

/-- C8 (code evaluated at the failing input): a successful partial update
does not change updated_at.  An address stored with updated_at = 0 and a
person stored with updated_at = 0 are patched successfully, and the
stored results still carry updated_at = 0, their pre-update values: the
handlers never write the field. -/
theorem C8_updated_at_not_bumped :
    update_address [(1, sampleAddress)] 1 ⟨none, some (some "Brooklyn"), none, none, none⟩ =
      (.ok ⟨1, "123 Main St", "Brooklyn", some "NY", some "10001", "USA", 0, 0⟩,
       [(1, ⟨1, "123 Main St", "Brooklyn", some "NY", some "10001", "USA", 0, 0⟩)]) ∧
    update_person [(2, samplePerson)] 2 ⟨none, some (some "Augusta"), none, none, none, none, none⟩ =
      (.ok ⟨2, "abc1234", "Augusta", "Lovelace", "ada@example.com", some "+1-212-555-0199",
            some "1815-12-10", [], 0, 0⟩,
       [(2, ⟨2, "abc1234", "Augusta", "Lovelace", "ada@example.com", some "+1-212-555-0199",
             some "1815-12-10", [], 0, 0⟩)]) := by decide

/-- C9 counterexample: a Person create whose generated identifier already
has an entry does not fail with 400 — it cannot fail at all — and the
store is not left unchanged: the existing record is overwritten. -/
theorem C9_counterexample_person_create_overwrites :
    (create_person [(2, samplePerson)] samplePersonCreate 2 1).2 =
      [(2, ⟨2, "xy123", "Grace", "Hopper", "grace@navy.mil", none, none, [], 1, 1⟩)] ∧
    (create_person [(2, samplePerson)] samplePersonCreate 2 1).2 ≠ [(2, samplePerson)] := by
  decide

/-- C9 amended: an Address create whose payload id already has an entry
fails with HTTP 400 leaving the store unchanged, and succeeds otherwise;
a Person create performs no duplicate check and stores the record under
the generated id unconditionally, overwriting any record already there. -/
theorem C9_amended_duplicate_create (db : AddrDB) (pdb : PersonDB) (ac : AddressCreate)
    (pc : PersonCreate) (freshId : UUID) (now : DateTime) :
    ((dictGet db ac.id).isSome = true →
      create_address db ac now = (.error ⟨400, "Address with this ID already exists"⟩, db)) ∧
    (dictGet db ac.id = none →
      create_address db ac now =
        (.ok { id := ac.id, street := ac.street, city := ac.city, state := ac.state,
               postal_code := ac.postal_code, country := ac.country,
               created_at := now, updated_at := now },
         dictSet db ac.id
           { id := ac.id, street := ac.street, city := ac.city, state := ac.state,
             postal_code := ac.postal_code, country := ac.country,
             created_at := now, updated_at := now })) ∧
    (create_person pdb pc freshId now).2 =
      dictSet pdb freshId (create_person pdb pc freshId now).1 := by
  refine ⟨fun h => ?_, fun h => ?_, rfl⟩
  · simp [create_address, h]
  · simp [create_address, h]

/-- C10: a partial update with the empty patch succeeds, returns the
stored record unchanged (both timestamps included), and leaves the store
equal to its prior state; for Person this needs the stored uni to pass
its pattern re-validation, which every stored record does. -/
theorem C10_empty_patch_identity (db : AddrDB) (pdb : PersonDB) (aid pid : UUID)
    (a : AddressRead) (p : PersonRead)
    (ha : dictGet db aid = some a) (hp : dictGet pdb pid = some p)
    (hvalid : uniValid p.uni = true) :
    update_address db aid AddressUpdate.empty = (.ok a, db) ∧
    update_person pdb pid PersonUpdate.empty = (.ok p, pdb) := by
  constructor
  · have hm : mergeAddress a AddressUpdate.empty = some a := rfl
    simp only [update_address, ha, hm, dictSet_self_of_get db aid a ha]
  · have hm : mergePerson p PersonUpdate.empty = some p := by
      unfold mergePerson
      simp [PersonUpdate.empty, hvalid]
    simp only [update_person, hp, hm, dictSet_self_of_get pdb pid p hp]

/-- C1 witness: the merge theorem applied to concrete stores and patches;
the address patch sets street, explicitly nulls state and omits the rest,
the person patch sets uni, explicitly nulls phone and replaces the
address list wholesale. -/
theorem C1_partial_update_merge_witness :
    update_address [(1, sampleAddress)] 1 sampleAddressPatch =
      (.ok ⟨1, "221B Baker St", "New York", none, some "10001", "USA", 0, 0⟩,
       [(1, ⟨1, "221B Baker St", "New York", none, some "10001", "USA", 0, 0⟩)]) ∧
    update_person [(2, samplePerson)] 2 samplePersonPatch =
      (.ok ⟨2, "xy12", "Ada", "Lovelace", "ada@example.com", none, some "1815-12-10",
            [sampleEmbedded], 0, 0⟩,
       [(2, ⟨2, "xy12", "Ada", "Lovelace", "ada@example.com", none, some "1815-12-10",
             [sampleEmbedded], 0, 0⟩)]) := by
  have h := C1_partial_update_merge [(1, sampleAddress)] [(2, samplePerson)] 1 2
      sampleAddress samplePerson sampleAddressPatch samplePersonPatch
      (by decide) (by decide) (by decide) (by decide) (by decide) (by decide) (by decide)
      (by decide) (by decide) (by decide) (by decide)
  exact h

/-- C2 witness for the amended identifier policy, at concrete creates. -/
theorem C2_amended_identifier_policy_witness :
    (⟨7, "1 A St", "X", none, none, "Y", 0, 0⟩ : AddressRead).id = sampleAddressCreate.id ∧
    dictGet ([] : AddrDB) sampleAddressCreate.id = none ∧
    (create_person [] samplePersonCreate 3 0).1.id = 3 ∧
    (create_person [] samplePersonCreate 3 0).1.id =
      (create_person [] ⟨"zz9", "A", "B", "a@b.c", none, none, []⟩ 3 1).1.id :=
  C2_amended_identifier_policy [] [] sampleAddressCreate samplePersonCreate
    ⟨"zz9", "A", "B", "a@b.c", none, none, []⟩ 3 0 1
    ⟨7, "1 A St", "X", none, none, "Y", 0, 0⟩
    [(7, ⟨7, "1 A St", "X", none, none, "Y", 0, 0⟩)] (by decide)

/-- C3 witness: concrete create-then-get round trips. -/
theorem C3_create_then_get_witness :
    (get_address [(7, sampleAddressStored)] sampleAddressStored.id = .ok sampleAddressStored ∧
      sampleAddressStored =
        { id := sampleAddressCreate.id, street := sampleAddressCreate.street,
          city := sampleAddressCreate.city, state := sampleAddressCreate.state,
          postal_code := sampleAddressCreate.postal_code,
          country := sampleAddressCreate.country, created_at := 0, updated_at := 0 }) ∧
    (get_person (create_person [] samplePersonCreate 3 0).2
        (create_person [] samplePersonCreate 3 0).1.id =
      .ok (create_person [] samplePersonCreate 3 0).1 ∧
      (create_person [] samplePersonCreate 3 0).1 =
        { id := 3, uni := samplePersonCreate.uni,
          first_name := samplePersonCreate.first_name,
          last_name := samplePersonCreate.last_name, email := samplePersonCreate.email,
          phone := samplePersonCreate.phone, birth_date := samplePersonCreate.birth_date,
          addresses := samplePersonCreate.addresses, created_at := 0, updated_at := 0 }) := by
  have h := C3_create_then_get [] [] sampleAddressCreate samplePersonCreate 3 0
      sampleAddressStored [(7, sampleAddressStored)] (by decide)
  exact h

/-- C6 witness: not-found outcomes on an empty store. -/
theorem C6_not_found_witness :
    get_address [] 0 = .error ⟨404, "Address not found"⟩ ∧
    update_address [] 0 AddressUpdate.empty = (.error ⟨404, "Address not found"⟩, []) ∧
    get_person [] 0 = .error ⟨404, "Person not found"⟩ ∧
    update_person [] 0 PersonUpdate.empty = (.error ⟨404, "Person not found"⟩, []) :=
  C6_not_found [] [] 0 0 AddressUpdate.empty PersonUpdate.empty rfl rfl

/-- C7 witness: concrete successful updates preserve id and created_at. -/
theorem C7_update_preserves_identity_witness :
    (⟨1, "123 Main St", "Brooklyn", some "NY", some "10001", "USA", 0, 0⟩ : AddressRead).id =
        sampleAddress.id ∧
    (⟨1, "123 Main St", "Brooklyn", some "NY", some "10001", "USA", 0, 0⟩ : AddressRead).created_at =
        sampleAddress.created_at ∧
    (⟨2, "abc1234", "Augusta", "Lovelace", "ada@example.com", some "+1-212-555-0199",
      some "1815-12-10", [], 0, 0⟩ : PersonRead).id = samplePerson.id ∧
    (⟨2, "abc1234", "Augusta", "Lovelace", "ada@example.com", some "+1-212-555-0199",
      some "1815-12-10", [], 0, 0⟩ : PersonRead).created_at = samplePerson.created_at :=
  C7_update_preserves_identity [(1, sampleAddress)] [(2, samplePerson)] 1 2
    sampleAddress samplePerson
    ⟨none, some (some "Brooklyn"), none, none, none⟩
    ⟨none, some (some "Augusta"), none, none, none, none, none⟩
    ⟨1, "123 Main St", "Brooklyn", some "NY", some "10001", "USA", 0, 0⟩
    [(1, ⟨1, "123 Main St", "Brooklyn", some "NY", some "10001", "USA", 0, 0⟩)]
    ⟨2, "abc1234", "Augusta", "Lovelace", "ada@example.com", some "+1-212-555-0199",
     some "1815-12-10", [], 0, 0⟩
    [(2, ⟨2, "abc1234", "Augusta", "Lovelace", "ada@example.com", some "+1-212-555-0199",
          some "1815-12-10", [], 0, 0⟩)]
    (by decide) (by decide) (by decide) (by decide)

/-- C9 witness for the amended duplicate policy, at concrete creates. -/
theorem C9_amended_duplicate_create_witness :
    create_address [(7, sampleAddressStored)] sampleAddressCreate 1 =
      (.error ⟨400, "Address with this ID already exists"⟩, [(7, sampleAddressStored)]) ∧
    create_address [] sampleAddressCreate 0 =
      (.ok sampleAddressStored, [(7, sampleAddressStored)]) ∧
    (create_person [] samplePersonCreate 3 0).2 =
      dictSet [] 3 (create_person [] samplePersonCreate 3 0).1 := by
  have h₁ := (C9_amended_duplicate_create [(7, sampleAddressStored)] []
      sampleAddressCreate samplePersonCreate 3 1).1 (by decide)
  have h₂ := (C9_amended_duplicate_create [] [] sampleAddressCreate
      samplePersonCreate 3 0).2.1 (by decide)
  have h₃ := (C9_amended_duplicate_create [] [] sampleAddressCreate
      samplePersonCreate 3 0).2.2
  exact ⟨h₁, h₂, h₃⟩

/-- C10 witness: empty patches at concrete stores. -/
theorem C10_empty_patch_identity_witness :
    update_address [(1, sampleAddress)] 1 AddressUpdate.empty =
      (.ok sampleAddress, [(1, sampleAddress)]) ∧
    update_person [(2, samplePerson)] 2 PersonUpdate.empty =
      (.ok samplePerson, [(2, samplePerson)]) :=
  C10_empty_patch_identity [(1, sampleAddress)] [(2, samplePerson)] 1 2
    sampleAddress samplePerson (by decide) (by decide) (by decide)
